import Mathlib

/-!
Shallow embedding of the espanso configuration resolution engine
(`espanso-config/src/config/resolve.rs`) and of the context-menu executor
(`espanso-engine/src/dispatch/executor/context_menu.rs`), together with
theorems about the merge, aggregation, path generation, filter matching and
loading behaviour.
-/

namespace Espanso

/-- The raw configuration record (`ParsedConfig` in `parse.rs`).  Only the
ten fields consumed by `resolve.rs` are embedded; every field is optional,
absence (`none`) being semantically distinct from an empty value. -/
structure ParsedConfig where
  label : Option String := none
  includes : Option (List String) := none
  excludes : Option (List String) := none
  extra_includes : Option (List String) := none
  extra_excludes : Option (List String) := none
  use_standard_includes : Option Bool := none
  filter_title : Option String := none
  filter_class : Option String := none
  filter_exec : Option String := none
  filter_os : Option String := none
deriving Repr, DecidableEq

/-- Modelled from the spec: one step of the `merge!` macro (`crate::merge`,
whose body lives outside the extracted sources): the child's field is kept
when present and replaced by the parent's field when `none`, matching the
in-file comment "Override the None fields with the parent's value" and the
`merge_parent_field_*` tests. -/
def mergeField {α : Type} (child parent : Option α) : Option α :=
  match child with
  | some v => some v
  | none => parent

/-- `ResolvedConfig::merge_parsed`: field-wise inheritance merge of a child
record with its parent, over the ten listed fields. -/
def merge_parsed (child parent : ParsedConfig) : ParsedConfig :=
  { label := mergeField child.label parent.label
    includes := mergeField child.includes parent.includes
    excludes := mergeField child.excludes parent.excludes
    extra_includes := mergeField child.extra_includes parent.extra_includes
    extra_excludes := mergeField child.extra_excludes parent.extra_excludes
    use_standard_includes :=
      mergeField child.use_standard_includes parent.use_standard_includes
    filter_title := mergeField child.filter_title parent.filter_title
    filter_class := mergeField child.filter_class parent.filter_class
    filter_exec := mergeField child.filter_exec parent.filter_exec
    filter_os := mergeField child.filter_os parent.filter_os }

theorem mergeField_some {α : Type} (child parent : Option α)
    (h : child.isSome) : mergeField child parent = child := by
  cases child with
  | some v => rfl
  | none => simp at h

theorem mergeField_none {α : Type} (parent : Option α) :
    mergeField (none : Option α) parent = parent := rfl

theorem mergeField_self {α : Type} (o : Option α) : mergeField o o = o := by
  cases o <;> rfl

end Espanso

namespace Espanso

/-- C1: for every child and parent record and each of the ten merged fields,
`merge_parsed child parent` has the field equal to the child's value when the
child's field is present, and to the parent's value otherwise; a present
child field is never overridden by the parent. -/
theorem merge_parsed_child_precedence (child parent : ParsedConfig) :
    ((child.label.isSome → (merge_parsed child parent).label = child.label) ∧
      (child.label = none → (merge_parsed child parent).label = parent.label)) ∧
    ((child.includes.isSome →
        (merge_parsed child parent).includes = child.includes) ∧
      (child.includes = none →
        (merge_parsed child parent).includes = parent.includes)) ∧
    ((child.excludes.isSome →
        (merge_parsed child parent).excludes = child.excludes) ∧
      (child.excludes = none →
        (merge_parsed child parent).excludes = parent.excludes)) ∧
    ((child.extra_includes.isSome →
        (merge_parsed child parent).extra_includes = child.extra_includes) ∧
      (child.extra_includes = none →
        (merge_parsed child parent).extra_includes = parent.extra_includes)) ∧
    ((child.extra_excludes.isSome →
        (merge_parsed child parent).extra_excludes = child.extra_excludes) ∧
      (child.extra_excludes = none →
        (merge_parsed child parent).extra_excludes = parent.extra_excludes)) ∧
    ((child.use_standard_includes.isSome →
        (merge_parsed child parent).use_standard_includes =
          child.use_standard_includes) ∧
      (child.use_standard_includes = none →
        (merge_parsed child parent).use_standard_includes =
          parent.use_standard_includes)) ∧
    ((child.filter_title.isSome →
        (merge_parsed child parent).filter_title = child.filter_title) ∧
      (child.filter_title = none →
        (merge_parsed child parent).filter_title = parent.filter_title)) ∧
    ((child.filter_class.isSome →
        (merge_parsed child parent).filter_class = child.filter_class) ∧
      (child.filter_class = none →
        (merge_parsed child parent).filter_class = parent.filter_class)) ∧
    ((child.filter_exec.isSome →
        (merge_parsed child parent).filter_exec = child.filter_exec) ∧
      (child.filter_exec = none →
        (merge_parsed child parent).filter_exec = parent.filter_exec)) ∧
    ((child.filter_os.isSome →
        (merge_parsed child parent).filter_os = child.filter_os) ∧
      (child.filter_os = none →
        (merge_parsed child parent).filter_os = parent.filter_os)) := by
  refine ⟨⟨?_, ?_⟩, ⟨?_, ?_⟩, ⟨?_, ?_⟩, ⟨?_, ?_⟩, ⟨?_, ?_⟩, ⟨?_, ?_⟩,
    ⟨?_, ?_⟩, ⟨?_, ?_⟩, ⟨?_, ?_⟩, ⟨?_, ?_⟩⟩ <;>
    intro h <;>
    simp only [merge_parsed] <;>
    first
      | exact mergeField_some _ _ h
      | (rw [h]; exact mergeField_none _)

/-- Witness for C1 at a concrete child and parent, discharging the inner
presence and absence hypotheses on the `label` field. -/
theorem merge_parsed_child_precedence_witness :
    (merge_parsed { label := some "child" } { label := some "parent" }).label
        = some "child" ∧
    (merge_parsed { } { label := some "parent" }).label = some "parent" :=
  ⟨(merge_parsed_child_precedence { label := some "child" }
      { label := some "parent" }).1.1 (by decide),
    (merge_parsed_child_precedence { } { label := some "parent" }).1.2 rfl⟩

/-- C8: merge is idempotent on identical inputs: `merge_parsed c c = c`,
every merged field of the result equalling the corresponding field of `c`. -/
theorem merge_parsed_idempotent (c : ParsedConfig) : merge_parsed c c = c := by
  cases c
  simp only [merge_parsed, mergeField_self]

/-- The constant `STANDARD_INCLUDES`. -/
def STANDARD_INCLUDES : List String := ["../match/**/*.yml"]

/-- The constant `STANDARD_EXCLUDES`. -/
def STANDARD_EXCLUDES : List String := ["../match/**/_*.yml"]

/-- The guard `config.use_standard_includes.is_none() ||
config.use_standard_includes.unwrap()`. -/
def useStandard (config : ParsedConfig) : Bool :=
  match config.use_standard_includes with
  | none => true
  | some b => b

/-- Sequential insertion of a list of pattern strings into a hash set,
embedding `patterns.iter().for_each(|p| set.insert(p.to_string()))` as a
fold over a `Finset`. -/
def insertAll (patterns : List String) (s : Finset String) : Finset String :=
  patterns.foldl (fun acc p => insert p acc) s

/-- `ResolvedConfig::aggregate_includes`: the effective set of include glob
patterns of a resolved record. -/
def aggregate_includes (config : ParsedConfig) : Finset String :=
  let includes : Finset String := ∅
  let includes :=
    if useStandard config then insertAll STANDARD_INCLUDES includes
    else includes
  let includes :=
    match config.includes with
    | some yaml_includes => insertAll yaml_includes includes
    | none => includes
  match config.extra_includes with
  | some extra_includes => insertAll extra_includes includes
  | none => includes

/-- `ResolvedConfig::aggregate_excludes`: the effective set of exclude glob
patterns of a resolved record. -/
def aggregate_excludes (config : ParsedConfig) : Finset String :=
  let excludes : Finset String := ∅
  let excludes :=
    if useStandard config then insertAll STANDARD_EXCLUDES excludes
    else excludes
  let excludes :=
    match config.excludes with
    | some yaml_excludes => insertAll yaml_excludes excludes
    | none => excludes
  match config.extra_excludes with
  | some extra_excludes => insertAll extra_excludes excludes
  | none => excludes

theorem mem_insertAll (patterns : List String) (s : Finset String)
    (x : String) : x ∈ insertAll patterns s ↔ x ∈ s ∨ x ∈ patterns := by
  induction patterns generalizing s with
  | nil => simp [insertAll]
  | cons head tail ih =>
    simp only [insertAll, List.foldl_cons] at *
    rw [ih]
    simp [Finset.mem_insert]
    tauto

theorem mem_aggregate_includes (config : ParsedConfig) (x : String) :
    x ∈ aggregate_includes config ↔
      (useStandard config = true ∧ x ∈ STANDARD_INCLUDES) ∨
      x ∈ config.includes.getD [] ∨ x ∈ config.extra_includes.getD [] := by
  unfold aggregate_includes
  cases hex : config.extra_includes <;>
    cases hin : config.includes <;>
    by_cases hstd : useStandard config = true <;>
    simp [hstd, mem_insertAll] <;>
    tauto

theorem mem_aggregate_excludes (config : ParsedConfig) (x : String) :
    x ∈ aggregate_excludes config ↔
      (useStandard config = true ∧ x ∈ STANDARD_EXCLUDES) ∨
      x ∈ config.excludes.getD [] ∨ x ∈ config.extra_excludes.getD [] := by
  unfold aggregate_excludes
  cases hex : config.extra_excludes <;>
    cases hin : config.excludes <;>
    by_cases hstd : useStandard config = true <;>
    simp [hstd, mem_insertAll] <;>
    tauto

/-- C6: with `use_standard_includes` absent or `some true`, the standard
include pattern is in `aggregate_includes` and the standard exclude pattern
is in `aggregate_excludes`; with `use_standard_includes = some false`, the
standard pattern is in the aggregated set exactly when the same string also
occurs in the record's own primary or extra pattern lists. -/
theorem aggregate_standard_pattern (config : ParsedConfig) :
    ((config.use_standard_includes = none ∨
        config.use_standard_includes = some true) →
      "../match/**/*.yml" ∈ aggregate_includes config ∧
        "../match/**/_*.yml" ∈ aggregate_excludes config) ∧
    (config.use_standard_includes = some false →
      ("../match/**/*.yml" ∈ aggregate_includes config ↔
          "../match/**/*.yml" ∈ config.includes.getD [] ∨
          "../match/**/*.yml" ∈ config.extra_includes.getD []) ∧
        ("../match/**/_*.yml" ∈ aggregate_excludes config ↔
          "../match/**/_*.yml" ∈ config.excludes.getD [] ∨
          "../match/**/_*.yml" ∈ config.extra_excludes.getD [])) := by
  constructor
  · intro h
    have hstd : useStandard config = true := by
      rcases h with h | h <;> simp [useStandard, h]
    constructor
    · rw [mem_aggregate_includes]
      exact Or.inl ⟨hstd, by simp [STANDARD_INCLUDES]⟩
    · rw [mem_aggregate_excludes]
      exact Or.inl ⟨hstd, by simp [STANDARD_EXCLUDES]⟩
  · intro h
    have hstd : useStandard config = false := by simp [useStandard, h]
    constructor
    · rw [mem_aggregate_includes, hstd]
      simp
    · rw [mem_aggregate_excludes, hstd]
      simp

/-- Witness for C6 at two concrete records: an empty record, where the
standard patterns appear, and a record disabling standard includes with the
standard include pattern re-added through `extra_includes`. -/
theorem aggregate_standard_pattern_witness :
    ("../match/**/*.yml" ∈ aggregate_includes { } ∧
      "../match/**/_*.yml" ∈ aggregate_excludes { }) ∧
    ("../match/**/*.yml" ∈
        aggregate_includes
          { use_standard_includes := some false
            extra_includes := some ["../match/**/*.yml"] } ↔
      "../match/**/*.yml" ∈
          ({ use_standard_includes := some false
             extra_includes :=
               some ["../match/**/*.yml"] } : ParsedConfig).includes.getD [] ∨
        "../match/**/*.yml" ∈
          ({ use_standard_includes := some false
             extra_includes :=
               some ["../match/**/*.yml"] } :
              ParsedConfig).extra_includes.getD []) :=
  ⟨(aggregate_standard_pattern { }).1 (Or.inl rfl),
    ((aggregate_standard_pattern
        { use_standard_includes := some false
          extra_includes := some ["../match/**/*.yml"] }).2 rfl).1⟩

/-- C7: every pattern listed in `extra_includes` is in the set returned by
`aggregate_includes`, and every pattern listed in `extra_excludes` is in the
set returned by `aggregate_excludes`, whatever `use_standard_includes` is. -/
theorem extra_patterns_always_aggregated (config : ParsedConfig)
    (p : String) :
    (p ∈ config.extra_includes.getD [] → p ∈ aggregate_includes config) ∧
    (p ∈ config.extra_excludes.getD [] → p ∈ aggregate_excludes config) := by
  constructor
  · intro h
    rw [mem_aggregate_includes]
    tauto
  · intro h
    rw [mem_aggregate_excludes]
    tauto

/-- Witness for C7: a concrete pattern listed in `extra_includes` of a record
with `use_standard_includes = some false` lands in the aggregated set. -/
theorem extra_patterns_always_aggregated_witness :
    "custom/*.yml" ∈
      aggregate_includes
        { use_standard_includes := some false
          extra_includes := some ["custom/*.yml"] } :=
  (extra_patterns_always_aggregated
      { use_standard_includes := some false
        extra_includes := some ["custom/*.yml"] } "custom/*.yml").1
    (by decide)

/-- Modelled from the spec: a compiled regular expression (the external
`regex::Regex` collaborator) is embedded as its matching predicate; after
compilation the only operation `resolve.rs` uses is `is_match`. -/
structure Regex where
  is_match : String → Bool

/-- `AppProperties`: the optional runtime window title, window class and
executable name of the active application. -/
structure AppProperties where
  title : Option String
  «class» : Option String
  exec : Option String

/-- `ResolvedConfig`: the merged raw record, the generated match paths (a
set: the source collects a `HashSet` whose iteration order is unspecified),
and the eagerly compiled filter predicates. -/
structure ResolvedConfig where
  parsed : ParsedConfig
  match_paths : Finset String
  filter_title : Option Regex
  filter_class : Option Regex
  filter_exec : Option Regex

/-- `ResolvedConfig::is_match`, parameterized by the external
`util::os_matches` collaborator: returns `false` when no filter field is
present in the merged record, and otherwise the conjunction of the OS,
exec, title and class checks, where a declared filter whose runtime
property is `None` fails and an absent filter is vacuously true. -/
def ResolvedConfig.is_match (os_matches : String → Bool)
    (self : ResolvedConfig) (app : AppProperties) : Bool :=
  if self.parsed.filter_os.isNone && self.parsed.filter_title.isNone
      && self.parsed.filter_exec.isNone && self.parsed.filter_class.isNone
  then
    false
  else
    let is_os_match :=
      match self.parsed.filter_os with
      | some filter_os => os_matches filter_os
      | none => true
    let is_title_match :=
      match self.filter_title with
      | some title_regex =>
        match app.title with
        | some title => title_regex.is_match title
        | none => false
      | none => true
    let is_exec_match :=
      match self.filter_exec with
      | some exec_regex =>
        match app.exec with
        | some exec => exec_regex.is_match exec
        | none => false
      | none => true
    let is_class_match :=
      match self.filter_class with
      | some class_regex =>
        match app.«class» with
        | some cls => class_regex.is_match cls
        | none => false
      | none => true
    is_os_match && is_exec_match && is_title_match && is_class_match

/-- C2: a resolved configuration whose merged record has all four of
`filter_os`, `filter_title`, `filter_exec`, `filter_class` absent never
matches: `is_match` is `false` for every OS predicate and every combination
of application properties. -/
theorem is_match_no_filters (os_matches : String → Bool)
    (rc : ResolvedConfig) (app : AppProperties)
    (hos : rc.parsed.filter_os = none)
    (htitle : rc.parsed.filter_title = none)
    (hexec : rc.parsed.filter_exec = none)
    (hclass : rc.parsed.filter_class = none) :
    rc.is_match os_matches app = false := by
  simp [ResolvedConfig.is_match, hos, htitle, hexec, hclass]

/-- Witness for C2: a configuration with no filters does not match even when
every runtime property is present. -/
theorem is_match_no_filters_witness :
    ResolvedConfig.is_match (fun _ => true)
      { parsed := { label := some "base" }
        match_paths := ∅
        filter_title := none
        filter_class := none
        filter_exec := none }
      { title := some "Google", «class» := some "Chrome"
        exec := some "chrome.exe" } = false :=
  is_match_no_filters (fun _ => true)
    { parsed := { label := some "base" }
      match_paths := ∅
      filter_title := none
      filter_class := none
      filter_exec := none }
    { title := some "Google", «class» := some "Chrome"
      exec := some "chrome.exe" }
    rfl rfl rfl rfl

/-- C3: with at least one filter field present, `is_match` is `true` exactly
when every declared filter individually holds: the declared OS identifier
satisfies the OS predicate, and each declared regex filter matches a present
corresponding runtime property; an absent filter is vacuously satisfied. -/
theorem is_match_iff_all_declared_filters_hold (os_matches : String → Bool)
    (rc : ResolvedConfig) (app : AppProperties)
    (h : ¬(rc.parsed.filter_os = none ∧ rc.parsed.filter_title = none ∧
        rc.parsed.filter_exec = none ∧ rc.parsed.filter_class = none)) :
    rc.is_match os_matches app = true ↔
      (∀ fo ∈ rc.parsed.filter_os, os_matches fo = true) ∧
      (∀ r ∈ rc.filter_title, ∃ t ∈ app.title, r.is_match t = true) ∧
      (∀ r ∈ rc.filter_exec, ∃ e ∈ app.exec, r.is_match e = true) ∧
      (∀ r ∈ rc.filter_class, ∃ c ∈ app.«class», r.is_match c = true) := by
  have hcond : (rc.parsed.filter_os.isNone && rc.parsed.filter_title.isNone
      && rc.parsed.filter_exec.isNone
      && rc.parsed.filter_class.isNone) = false := by
    rcases hfo : rc.parsed.filter_os with _ | fo <;>
      rcases hft : rc.parsed.filter_title with _ | ft <;>
      rcases hfe : rc.parsed.filter_exec with _ | fe <;>
      rcases hfc : rc.parsed.filter_class with _ | fc <;>
      simp_all
  rw [ResolvedConfig.is_match, hcond]
  simp only [Bool.false_eq_true, if_false]
  rcases hfo : rc.parsed.filter_os with _ | fo <;>
    rcases hT : rc.filter_title with _ | rt <;>
    rcases hE : rc.filter_exec with _ | re <;>
    rcases hC : rc.filter_class with _ | rc' <;>
    rcases app with ⟨_ | t, _ | c, _ | e⟩ <;>
    simp [Option.mem_def, and_assoc, and_comm, and_left_comm]

/-- A concrete resolved configuration declaring exec and title filters,
used to exercise the matcher theorems on the spec's Youtube scenario. -/
def chromeYoutubeConfig : ResolvedConfig :=
  { parsed :=
      { filter_exec := some "chrome.exe"
        filter_title := some "Youtube" }
    match_paths := ∅
    filter_title :=
      some ⟨fun s => s = "Youtube - Broadcast Yourself"⟩
    filter_class := none
    filter_exec := some ⟨fun s => s = "chrome.exe"⟩ }

/-- Concrete application properties for the Youtube scenario. -/
def youtubeApp : AppProperties :=
  { title := some "Youtube - Broadcast Yourself"
    «class» := some "Chrome"
    exec := some "chrome.exe" }

/-- Witness for C3: a configuration declaring exec and title filters matches
an application whose exec and title satisfy both regexes, with the class
filter absent and hence vacuous. -/
theorem is_match_iff_all_declared_filters_hold_witness :
    (¬(chromeYoutubeConfig.parsed.filter_os = none ∧
        chromeYoutubeConfig.parsed.filter_title = none ∧
        chromeYoutubeConfig.parsed.filter_exec = none ∧
        chromeYoutubeConfig.parsed.filter_class = none)) ∧
    (chromeYoutubeConfig.is_match (fun _ => true) youtubeApp = true ↔
      (∀ fo ∈ chromeYoutubeConfig.parsed.filter_os,
          (fun (_ : String) => true) fo = true) ∧
      (∀ r ∈ chromeYoutubeConfig.filter_title,
          ∃ t ∈ youtubeApp.title, r.is_match t = true) ∧
      (∀ r ∈ chromeYoutubeConfig.filter_exec,
          ∃ e ∈ youtubeApp.exec, r.is_match e = true) ∧
      (∀ r ∈ chromeYoutubeConfig.filter_class,
          ∃ c ∈ youtubeApp.«class», r.is_match c = true)) :=
  ⟨by simp [chromeYoutubeConfig],
    is_match_iff_all_declared_filters_hold (fun _ => true)
      chromeYoutubeConfig youtubeApp (by simp [chromeYoutubeConfig])⟩

/-- C4: when a title, exec or class filter is declared but the corresponding
runtime application property is `None`, `is_match` is `false`, whatever the
other properties and filters are. -/
theorem is_match_declared_filter_missing_property (os_matches : String → Bool)
    (rc : ResolvedConfig) (app : AppProperties)
    (h : (rc.filter_title.isSome ∧ app.title = none) ∨
      (rc.filter_exec.isSome ∧ app.exec = none) ∨
      (rc.filter_class.isSome ∧ app.«class» = none)) :
    rc.is_match os_matches app = false := by
  rw [ResolvedConfig.is_match]
  split
  · rfl
  · rcases h with ⟨hs, hn⟩ | ⟨hs, hn⟩ | ⟨hs, hn⟩ <;>
      rcases Option.isSome_iff_exists.mp hs with ⟨r, hr⟩ <;>
      simp [hr, hn]

/-- Witness for C4: a configuration with a declared title filter does not
match an application whose title is absent, even though the exec and class
properties are present. -/
theorem is_match_declared_filter_missing_property_witness :
    (((some ⟨fun _ => true⟩ : Option Regex).isSome ∧
        (none : Option String) = none) ∨
      ((none : Option Regex).isSome ∧
        (some "chrome.exe" : Option String) = none) ∨
      ((none : Option Regex).isSome ∧
        (some "Chrome" : Option String) = none)) ∧
    ResolvedConfig.is_match (fun _ => true)
      { parsed := { filter_title := some "Google" }
        match_paths := ∅
        filter_title := some ⟨fun _ => true⟩
        filter_class := none
        filter_exec := none }
      { title := none, «class» := some "Chrome"
        exec := some "chrome.exe" } = false :=
  ⟨Or.inl ⟨rfl, rfl⟩,
    is_match_declared_filter_missing_property (fun _ => true)
      { parsed := { filter_title := some "Google" }
        match_paths := ∅
        filter_title := some ⟨fun _ => true⟩
        filter_class := none
        filter_exec := none }
      { title := none, «class» := some "Chrome"
        exec := some "chrome.exe" }
      (Or.inl ⟨rfl, rfl⟩)⟩

/-- Modelled from the spec: the external glob path resolver
(`path::calculate_paths`, not among the extracted sources) expands each glob
pattern relative to the base directory into the set of concrete paths it
matches and returns the union over the whole pattern set, the empty set when
nothing matches; membership in the result is by exact path-string value. -/
def calculate_paths (glob : String → String → Finset String)
    (base_dir : String) (patterns : Finset String) : Finset String :=
  patterns.biUnion (fun pat => glob base_dir pat)

/-- `ResolvedConfig::generate_match_paths`: aggregate the include and
exclude pattern sets, resolve both through the glob resolver, and return
the set difference of the resolved include paths and the resolved exclude
paths. -/
def generate_match_paths (glob : String → String → Finset String)
    (config : ParsedConfig) (base_dir : String) : Finset String :=
  let includes := aggregate_includes config
  let excludes := aggregate_excludes config
  let exclude_paths := calculate_paths glob base_dir excludes
  let include_paths := calculate_paths glob base_dir includes
  include_paths \ exclude_paths

/-- C5: `generate_match_paths` is exactly the set difference of the resolved
include paths and the resolved exclude paths: a concrete path is in the
result iff it is in the glob-resolution of the aggregated includes and not
in the glob-resolution of the aggregated excludes (by exact path-string
equality); in particular a path reachable through include patterns but also
produced by some exclude pattern never appears. -/
theorem generate_match_paths_set_difference
    (glob : String → String → Finset String) (config : ParsedConfig)
    (base_dir : String) (p : String) :
    (p ∈ generate_match_paths glob config base_dir ↔
      p ∈ calculate_paths glob base_dir (aggregate_includes config) ∧
        p ∉ calculate_paths glob base_dir (aggregate_excludes config)) ∧
    ((∃ pat ∈ aggregate_includes config, p ∈ glob base_dir pat) →
      (∃ pat ∈ aggregate_excludes config, p ∈ glob base_dir pat) →
      p ∉ generate_match_paths glob config base_dir) := by
  constructor
  · simp [generate_match_paths, Finset.mem_sdiff]
  · intro _ hexc
    simp only [generate_match_paths, Finset.mem_sdiff, calculate_paths,
      Finset.mem_biUnion, not_and, not_not]
    intro _
    exact hexc

/-- A concrete glob resolver for the witnesses: `i1` and `i2` both reach
`a.yml`, `i2` also reaches `b.yml`, and `e1` reaches `a.yml`. -/
def sampleGlob (base_dir pat : String) : Finset String :=
  if base_dir = "/cfg" then
    if pat = "i1" then {"a.yml"}
    else if pat = "i2" then {"a.yml", "b.yml"}
    else if pat = "e1" then {"a.yml"}
    else ∅
  else ∅

/-- A concrete record for the witnesses: standard patterns disabled, two
include patterns and one exclude pattern. -/
def sampleRecord : ParsedConfig :=
  { use_standard_includes := some false
    includes := some ["i1", "i2"]
    excludes := some ["e1"] }

/-- Witness for C5: `a.yml` is reachable through both include patterns of
`sampleRecord` yet excluded by its single exclude pattern, so it is not
among the generated match paths. -/
theorem generate_match_paths_set_difference_witness :
    (∃ pat ∈ aggregate_includes sampleRecord,
        "a.yml" ∈ sampleGlob "/cfg" pat) ∧
    (∃ pat ∈ aggregate_excludes sampleRecord,
        "a.yml" ∈ sampleGlob "/cfg" pat) ∧
    "a.yml" ∉ generate_match_paths sampleGlob sampleRecord "/cfg" := by
  refine ⟨?_, ?_, ?_⟩
  · exact ⟨"i1", by decide, by decide⟩
  · exact ⟨"e1", by decide, by decide⟩
  · exact (generate_match_paths_set_difference sampleGlob sampleRecord
      "/cfg" "a.yml").2 ⟨"i1", by decide, by decide⟩ ⟨"e1", by decide, by decide⟩

/-- The error taxonomy of `load` (`anyhow::Result` in the source, carrying
either the parse failure, `ResolveError::ParentResolveFailed`, or the regex
compiler's error). -/
inductive LoadError where
  | parseFailed (e : String)
  | parentResolveFailed
  | regexFailed (e : String)
deriving Repr, DecidableEq

/-- The merge step of `load`: the freshly parsed record is merged with the
parent's record when a parent is present. -/
def mergedWithParent (parsed0 : ParsedConfig)
    (parent : Option ResolvedConfig) : ParsedConfig :=
  match parent with
  | some par => merge_parsed parsed0 par.parsed
  | none => parsed0

/-- The per-field eager compilation step of `load`: a present raw filter
field is handed to `Regex::new` (embedded as the `regex_new` parameter),
propagating the compiler's error; an absent field compiles to `none`. -/
def compileFilter (regex_new : String → Except String Regex)
    (field : Option String) : Except String (Option Regex) :=
  match field with
  | some src =>
    match regex_new src with
    | Except.ok r => Except.ok (some r)
    | Except.error e => Except.error e
  | none => Except.ok none

/-- `ResolvedConfig::load`, parameterized by the external collaborators:
the raw record loader `ParsedConfig::load`, the parent-directory resolution
of the path, the glob resolver and `Regex::new`.  Parses, merges with the
parent, resolves the base directory, generates the match paths and eagerly
compiles the three regex filters, propagating the first failure. -/
def ResolvedConfig.load (parse_load : String → Except String ParsedConfig)
    (parent_dir : String → Option String)
    (glob : String → String → Finset String)
    (regex_new : String → Except String Regex)
    (path : String) (parent : Option ResolvedConfig) :
    Except LoadError ResolvedConfig :=
  match parse_load path with
  | Except.error e => Except.error (LoadError.parseFailed e)
  | Except.ok parsed0 =>
    let config := mergedWithParent parsed0 parent
    match parent_dir path with
    | none => Except.error LoadError.parentResolveFailed
    | some base_dir =>
      let match_paths := generate_match_paths glob config base_dir
      match compileFilter regex_new config.filter_title with
      | Except.error e => Except.error (LoadError.regexFailed e)
      | Except.ok filter_title =>
        match compileFilter regex_new config.filter_class with
        | Except.error e => Except.error (LoadError.regexFailed e)
        | Except.ok filter_class =>
          match compileFilter regex_new config.filter_exec with
          | Except.error e => Except.error (LoadError.regexFailed e)
          | Except.ok filter_exec =>
            Except.ok
              { parsed := config
                match_paths := match_paths
                filter_title := filter_title
                filter_class := filter_class
                filter_exec := filter_exec }

theorem compileFilter_ok_isNone (regex_new : String → Except String Regex)
    (field : Option String) (res : Option Regex)
    (h : compileFilter regex_new field = Except.ok res) :
    res = none ↔ field = none := by
  cases field with
  | none =>
    simp only [compileFilter] at h
    injection h with h
    subst h
    simp
  | some src =>
    simp only [compileFilter] at h
    cases hr : regex_new src with
    | ok r =>
      rw [hr] at h
      injection h with h
      subst h
      simp
    | error e =>
      rw [hr] at h
      cases h

theorem compileFilter_error_of (regex_new : String → Except String Regex)
    (src e : String) (h : regex_new src = Except.error e) :
    compileFilter regex_new (some src) = Except.error e := by
  simp [compileFilter, h]

theorem load_ok_inversion (parse_load : String → Except String ParsedConfig)
    (parent_dir : String → Option String)
    (glob : String → String → Finset String)
    (regex_new : String → Except String Regex)
    (path : String) (parent : Option ResolvedConfig)
    (parsed0 : ParsedConfig) (rc : ResolvedConfig)
    (hp : parse_load path = Except.ok parsed0)
    (h : ResolvedConfig.load parse_load parent_dir glob regex_new path parent
      = Except.ok rc) :
    rc.parsed = mergedWithParent parsed0 parent ∧
    compileFilter regex_new (mergedWithParent parsed0 parent).filter_title
        = Except.ok rc.filter_title ∧
    compileFilter regex_new (mergedWithParent parsed0 parent).filter_class
        = Except.ok rc.filter_class ∧
    compileFilter regex_new (mergedWithParent parsed0 parent).filter_exec
        = Except.ok rc.filter_exec := by
  rw [ResolvedConfig.load, hp] at h
  simp only at h
  cases hd : parent_dir path with
  | none => rw [hd] at h; cases h
  | some base_dir =>
    rw [hd] at h
    simp only at h
    cases hT : compileFilter regex_new
        (mergedWithParent parsed0 parent).filter_title with
    | error e => rw [hT] at h; cases h
    | ok filter_title =>
      rw [hT] at h
      simp only at h
      cases hC : compileFilter regex_new
          (mergedWithParent parsed0 parent).filter_class with
      | error e => rw [hC] at h; cases h
      | ok filter_class =>
        rw [hC] at h
        simp only at h
        cases hE : compileFilter regex_new
            (mergedWithParent parsed0 parent).filter_exec with
        | error e => rw [hE] at h; cases h
        | ok filter_exec =>
          rw [hE] at h
          simp only at h
          injection h with h
          subst h
          exact ⟨rfl, rfl, rfl, rfl⟩

/-- C9: `load` compiles every declared filter regex eagerly: whenever the
merged record has some filter field whose source the regex compiler rejects,
`load` returns an error (never a partially-compiled configuration); and
whenever `load` succeeds, the returned configuration carries the merged
record and each compiled filter predicate is `none` exactly when the
corresponding merged raw field is absent. -/
theorem load_compiles_filters_eagerly
    (parse_load : String → Except String ParsedConfig)
    (parent_dir : String → Option String)
    (glob : String → String → Finset String)
    (regex_new : String → Except String Regex)
    (path : String) (parent : Option ResolvedConfig)
    (parsed0 : ParsedConfig)
    (hp : parse_load path = Except.ok parsed0) :
    ((∃ src, ((mergedWithParent parsed0 parent).filter_title = some src ∨
          (mergedWithParent parsed0 parent).filter_class = some src ∨
          (mergedWithParent parsed0 parent).filter_exec = some src) ∧
        ∃ e, regex_new src = Except.error e) →
      ∃ err, ResolvedConfig.load parse_load parent_dir glob regex_new path
          parent = Except.error err) ∧
    (∀ rc, ResolvedConfig.load parse_load parent_dir glob regex_new path
          parent = Except.ok rc →
      rc.parsed = mergedWithParent parsed0 parent ∧
      (rc.filter_title = none ↔
        (mergedWithParent parsed0 parent).filter_title = none) ∧
      (rc.filter_class = none ↔
        (mergedWithParent parsed0 parent).filter_class = none) ∧
      (rc.filter_exec = none ↔
        (mergedWithParent parsed0 parent).filter_exec = none)) := by
  constructor
  · rintro ⟨src, hfield, e, he⟩
    cases hload : ResolvedConfig.load parse_load parent_dir glob regex_new
        path parent with
    | error err => exact ⟨err, rfl⟩
    | ok rc =>
      exfalso
      obtain ⟨-, hT, hC, hE⟩ :=
        load_ok_inversion parse_load parent_dir glob regex_new path parent
          parsed0 rc hp hload
      rcases hfield with hf | hf | hf
      · rw [hf, compileFilter_error_of regex_new src e he] at hT
        cases hT
      · rw [hf, compileFilter_error_of regex_new src e he] at hC
        cases hC
      · rw [hf, compileFilter_error_of regex_new src e he] at hE
        cases hE
  · intro rc hload
    obtain ⟨hparsed, hT, hC, hE⟩ :=
      load_ok_inversion parse_load parent_dir glob regex_new path parent
        parsed0 rc hp hload
    exact ⟨hparsed,
      compileFilter_ok_isNone regex_new _ _ hT,
      compileFilter_ok_isNone regex_new _ _ hC,
      compileFilter_ok_isNone regex_new _ _ hE⟩

/-- A concrete regex compiler for the witnesses: it rejects the single
unbalanced-group source `"("` and compiles everything else to a predicate. -/
def sampleRegexCompiler (src : String) : Except String Regex :=
  if src = "(" then Except.error "unclosed group"
  else Except.ok ⟨fun s => s = src⟩

/-- A concrete raw-record loader for the witnesses, always producing a
record whose title filter source is the invalid pattern `"("`. -/
def sampleParseLoad (_ : String) : Except String ParsedConfig :=
  Except.ok { filter_title := some "(" }

/-- Witness for C9: loading a record whose merged `filter_title` holds an
invalid regex source fails. -/
theorem load_compiles_filters_eagerly_witness :
    ∃ err, ResolvedConfig.load sampleParseLoad (fun _ => some "/cfg")
        sampleGlob sampleRegexCompiler "/cfg/default.yml" none
      = Except.error err :=
  (load_compiles_filters_eagerly sampleParseLoad (fun _ => some "/cfg")
      sampleGlob sampleRegexCompiler "/cfg/default.yml" none
      { filter_title := some "(" } rfl).1
    ⟨"(", Or.inl rfl, "unclosed group", by rfl⟩

/-- `SimpleMenuItem` from the engine's event module: an id and a label. -/
structure SimpleMenuItem where
  id : Nat
  label : String
deriving Repr, DecidableEq

/-- Modelled from the spec: the engine's menu-item type (`event::ui`, not
among the extracted sources); only the `Simple` constructor is used by the
context-menu executor, the remaining variants are collapsed. -/
inductive MenuItem where
  | Simple (item : SimpleMenuItem)
  | OtherItem (tag : Nat)
deriving Repr, DecidableEq

/-- The payload of a `ShowContextMenu` event: its menu items. -/
structure ShowContextMenuEvent where
  items : List MenuItem
deriving Repr, DecidableEq

/-- Modelled from the spec: the engine's event type (`event::EventType`, not
among the extracted sources); the executor inspects only the
`ShowContextMenu` variant, every other variant is collapsed into `Other`. -/
inductive EventType where
  | ShowContextMenu (ev : ShowContextMenuEvent)
  | Other (tag : Nat)
deriving Repr, DecidableEq

/-- An engine event; only its type is consumed by the executor. -/
structure Event where
  etype : EventType
deriving Repr, DecidableEq

/-- `ContextMenuExecutor::execute`, with the context-menu handler embedded
as a fallible function over item lists.  The embedding returns the claimed
flag together with the trace of handler invocations (each recorded with the
item list it was shown); a handler error is only logged, so both handler
outcomes yield the same result. -/
def ContextMenuExecutor.execute
    (handler : List MenuItem → Except String Unit) (event : Event) :
    Bool × List (List MenuItem) :=
  match event.etype with
  | EventType.ShowContextMenu context_menu_event =>
    let updated_items := context_menu_event.items ++
      [MenuItem.Simple { id := 1, label := "Open match folder" }]
    match handler updated_items with
    | Except.ok _ => (true, [updated_items])
    | Except.error _ => (true, [updated_items])
  | EventType.Other _ => (false, [])

/-- C10: `execute` returns `true` for every `ShowContextMenu` event, for
every handler — in particular for one that reports an error, which is only
logged and never reflected in the result — and returns `false` for every
event of any other type, in which case the handler is never invoked (the
invocation trace is empty). -/
theorem context_menu_execute_claims
    (handler : List MenuItem → Except String Unit) (event : Event) :
    (∀ cme, event.etype = EventType.ShowContextMenu cme →
      (ContextMenuExecutor.execute handler event).1 = true) ∧
    ((∀ cme, event.etype ≠ EventType.ShowContextMenu cme) →
      ContextMenuExecutor.execute handler event = (false, [])) := by
  constructor
  · intro cme hcme
    simp only [ContextMenuExecutor.execute, hcme]
    cases handler (cme.items ++
        [MenuItem.Simple { id := 1, label := "Open match folder" }]) <;>
      rfl
  · intro hother
    rw [ContextMenuExecutor.execute]
    cases hety : event.etype with
    | ShowContextMenu cme => exact absurd hety (hother cme)
    | Other tag => rfl

/-- Witness for C10: with a handler that always errors, a `ShowContextMenu`
event is claimed (`true`) while an event of another type is not claimed and
produces no handler invocation. -/
theorem context_menu_execute_claims_witness :
    (ContextMenuExecutor.execute (fun _ => Except.error "menu failed")
        { etype := EventType.ShowContextMenu { items := [] } }).1 = true ∧
    ContextMenuExecutor.execute (fun _ => Except.error "menu failed")
        { etype := EventType.Other 0 } = (false, []) :=
  ⟨(context_menu_execute_claims (fun _ => Except.error "menu failed")
      { etype := EventType.ShowContextMenu { items := [] } }).1
      { items := [] } rfl,
    (context_menu_execute_claims (fun _ => Except.error "menu failed")
      { etype := EventType.Other 0 }).2 (fun cme h => by cases h)⟩

end Espanso
